import Mathlib

/-!
Shallow embedding of the weather-dashboard script (`src/script.js`) of the
Weather-Forecast repository, together with theorems settling the spec claims.

JavaScript semantics are modelled as follows: numbers are rationals (`ℚ`),
`Math.round x` is `⌊x + 1/2⌋` (JS rounds half toward +∞), the integer `%`
operator is truncated remainder (`Int.tmod`, sign of the dividend), array
indexing that can fall out of bounds returns `Option` (JS `undefined` is
`none`), and each `fetch`/JSON step is an environment-supplied outcome
(`FetchOutcome`) since the network is a black box.  DOM regions are modelled
as abstract pane contents; `Math.random()` is an environment-supplied stream
of rationals in `[0, 1)`.
-/

namespace Weather

/-- Result of `getWeatherInfo`: a human description and an icon glyph,
exactly as the string literals appear in `src/script.js`. -/
structure WeatherInfo where
  description : String
  icon : String
deriving DecidableEq, Repr

/-- The sentinel returned by `getWeatherInfo` for codes missing from the
table: `{ description: 'Unknown', icon: 'â“' }` (line 322 of the script). -/
def unknownInfo : WeatherInfo := ⟨"Unknown", "â“"⟩

/-- Embedding of `getWeatherInfo` (script lines 301–323): the object-literal
lookup `weatherMap[code]` followed by `|| sentinel`.  A JS object lookup at a
missing key yields `undefined` (falsy), hence the if-chain with the sentinel
as the final else. -/
def getWeatherInfo (code : ℤ) : WeatherInfo :=
  if code = 0 then ⟨"Clear sky", "â˜€ï¸"⟩
  else if code = 1 then ⟨"Mainly clear", "ğŸŒ¤ï¸"⟩
  else if code = 2 then ⟨"Partly cloudy", "â›…"⟩
  else if code = 3 then ⟨"Overcast", "â˜ï¸"⟩
  else if code = 45 then ⟨"Fog", "ğŸŒ«ï¸"⟩
  else if code = 48 then ⟨"Depositing rime fog", "ğŸŒ«ï¸"⟩
  else if code = 51 then ⟨"Light drizzle", "ğŸŒ¦ï¸"⟩
  else if code = 53 then ⟨"Moderate drizzle", "ğŸŒ¦ï¸"⟩
  else if code = 55 then ⟨"Dense drizzle", "ğŸŒ¦ï¸"⟩
  else if code = 61 then ⟨"Slight rain", "ğŸŒ§ï¸"⟩
  else if code = 63 then ⟨"Moderate rain", "ğŸŒ§ï¸"⟩
  else if code = 65 then ⟨"Heavy rain", "â›ˆï¸"⟩
  else if code = 80 then ⟨"Slight rain showers", "ğŸŒ¦ï¸"⟩
  else if code = 81 then ⟨"Moderate rain showers", "ğŸŒ§ï¸"⟩
  else if code = 82 then ⟨"Violent rain showers", "â›ˆï¸"⟩
  else if code = 95 then ⟨"Thunderstorm", "â›ˆï¸"⟩
  else if code = 96 then ⟨"Thunderstorm with hail", "â›ˆï¸"⟩
  else unknownInfo

/-- The codes enumerated in the `weatherMap` table of the script. -/
def knownCodes : List ℤ := [0, 1, 2, 3, 45, 48, 51, 53, 55, 61, 63, 65, 80, 81, 82, 95, 96]

/-- Embedding of JS `Math.round` on exact rationals: round half toward
positive infinity, i.e. `⌊x + 1/2⌋`. -/
def jsRound (x : ℚ) : ℤ := ⌊x + 1 / 2⌋

/-- JS `%` on integers: truncated remainder, taking the sign of the
dividend (`Int.tmod`). -/
def jsMod (a b : ℤ) : ℤ := a.tmod b

/-- The 16 compass labels of `getWindDirection` (script line 296). -/
def directions : List String :=
  ["N", "NNE", "NE", "ENE", "E", "ESE", "SE", "SSE",
   "S", "SSW", "SW", "WSW", "W", "WNW", "NW", "NNW"]

/-- The intermediate `const index = Math.round(degrees / 22.5) % 16` of
`getWindDirection` (script line 297); `22.5 = 45/2`. -/
def windIndex (degrees : ℚ) : ℤ := jsMod (jsRound (degrees / (45 / 2))) 16

/-- Embedding of `getWindDirection` (script lines 295–299):
`return directions[index]`.  For a negative `index` the JS array access
yields `undefined`, modelled as `none`. -/
def getWindDirection (degrees : ℚ) : Option String :=
  if windIndex degrees < 0 then none else directions.get? (windIndex degrees).toNat

/-- Whitespace characters stripped by JS `String.prototype.trim` (the common
ASCII ones; the script only ever receives keyboard input). -/
def isJsWhitespace (c : Char) : Bool :=
  c == ' ' || c == '\t' || c == '\n' || c == '\r' || c == '\x0b' || c == '\x0c'

/-- Embedding of JS `.trim()` (script line 32): drop leading and trailing
whitespace. -/
def jsTrim (s : String) : String :=
  String.mk (((s.data.dropWhile isJsWhitespace).reverse.dropWhile isJsWhitespace).reverse)

/-- The `current` block of the weather-endpoint JSON, with the fields the
script reads (lines 131–136). -/
structure CurrentBlock where
  temperature_2m : ℚ
  relative_humidity_2m : ℚ
  apparent_temperature : ℚ
  weather_code : ℤ
  wind_speed_10m : ℚ
  wind_direction_10m : ℚ
deriving DecidableEq

/-- The `daily` block of the weather-endpoint JSON: parallel arrays indexed
by day offset (script lines 172–184). -/
structure DailyBlock where
  time : List String
  weather_code : List ℤ
  temperature_2m_max : List ℚ
  temperature_2m_min : List ℚ
  precipitation_sum : List ℚ
  wind_speed_10m_max : List ℚ
deriving DecidableEq

/-- The weather-endpoint JSON envelope; `current` is optional because the
script positively checks `if (!data.current)` (line 113). -/
structure WeatherData where
  current : Option CurrentBlock
  daily : DailyBlock
deriving DecidableEq

/-- One rendered forecast card (script lines 178–199).  Fields are `Option`
because a JS out-of-bounds array read yields `undefined`. -/
structure ForecastCard where
  time : Option String
  maxTemp : Option ℤ
  minTemp : Option ℤ
  info : WeatherInfo
  windSpeed : Option ℚ
  precipitation : Option ℚ
deriving DecidableEq

/-- One iteration of the `displayForecast` loop body at daily index `i`
(script lines 178–186): reads every parallel array at `i`, rounding the two
temperatures with `Math.round`.  `getWeatherInfo(undefined)` falls through
the object lookup to the sentinel, hence the `getD unknownInfo`. -/
def mkForecastCard (daily : DailyBlock) (i : ℕ) : ForecastCard where
  time := daily.time.get? i
  maxTemp := (daily.temperature_2m_max.get? i).map jsRound
  minTemp := (daily.temperature_2m_min.get? i).map jsRound
  info := ((daily.weather_code.get? i).map getWeatherInfo).getD unknownInfo
  windSpeed := daily.wind_speed_10m_max.get? i
  precipitation := daily.precipitation_sum.get? i

/-- Embedding of `displayForecast` (script lines 170–202): the loop
`for (let i = 1; i <= 5; i++)` appends one card per iteration, so the
rendered list is the cards at daily indices `1..5` in order. -/
def displayForecast (daily : DailyBlock) : List ForecastCard :=
  (List.range 5).map (fun j => mkForecastCard daily (j + 1))

/-- Abstract content of one DOM region (`#currentWeather` or `#forecast`). -/
inductive Pane where
  | blank : Pane
  | loadingWeather : Pane
  | loadingForecast : Pane
  | errorMsg (msg : String) : Pane
  | summary (cityName country : String) (temp feelsLike : ℤ)
      (humidity windSpeed windDeg : ℚ) (info : WeatherInfo)
      (dirLabel : Option String) : Pane
  | cards (cs : List ForecastCard) : Pane
deriving DecidableEq

/-- The two DOM regions the script writes: the summary region
`#currentWeather` and the forecast region `#forecast`. -/
structure DomState where
  currentWeather : Pane
  forecast : Pane
deriving DecidableEq

/-- Embedding of `showLoading` (script lines 325–328): writes a loading
placeholder into both regions. -/
def showLoading (_dom : DomState) : DomState :=
  ⟨Pane.loadingWeather, Pane.loadingForecast⟩

/-- Embedding of `showError` (script lines 330–332): writes the error
message into the summary region only; the forecast region is untouched. -/
def showError (dom : DomState) (msg : String) : DomState :=
  { dom with currentWeather := Pane.errorMsg msg }

/-- Embedding of `displayCurrentWeather` (script lines 127–167): the summary
region after a successful fetch, with `Math.round` applied to the two
temperatures and the raw values elsewhere. -/
def displayCurrentWeather (c : CurrentBlock) (cityName country : String) : Pane :=
  Pane.summary cityName country (jsRound c.temperature_2m) (jsRound c.apparent_temperature)
    c.relative_humidity_2m c.wind_speed_10m c.wind_direction_10m
    (getWeatherInfo c.weather_code) (getWindDirection c.wind_direction_10m)

/-- Outcome of one `fetch` + `.json()` step: the parsed value, or a thrown
transport/parse error. -/
inductive FetchOutcome (α : Type) where
  | ok (val : α) : FetchOutcome α
  | fail : FetchOutcome α
deriving DecidableEq

/-- One entry of the geocoding response's `results` array
(script lines 50, 82–83). -/
structure GeoResult where
  latitude : ℚ
  longitude : ℚ
  name : String
  country : String
deriving DecidableEq

/-- The geocoding JSON envelope: the `results` field may be absent (`none`)
or an array; the script checks `!geoData.results || length === 0`. -/
abbrev GeoData := Option (List GeoResult)

/-- An outbound network request issued by the script. -/
inductive Request where
  | geocode (name : String) : Request
  | reverseGeocode (latitude longitude : ℚ) : Request
  | weather (latitude longitude : ℚ) : Request
deriving DecidableEq

/-- The active map-overlay button (script lines 237–249 branch on the
button text containing `Temperature` / `Wind`). -/
inductive OverlayMode where
  | temperature : OverlayMode
  | wind : OverlayMode
  | precipitation : OverlayMode
deriving DecidableEq

/-- The sample-generation loop of `updateMapLayers` (script lines 232–250).
`rand` is the `Math.random()` stream, consumed three draws per iteration
(latitude jitter, longitude jitter, intensity); `(r - 0.5) * 0.2` is
`(r - 1/2) * (1/5)`.  Exactly one intensity branch runs per iteration,
scaled to the active mode's range. -/
def overlayPoints (rand : ℕ → ℚ) (mode : OverlayMode) (centerLat centerLon : ℚ) :
    List (ℚ × ℚ × ℚ) :=
  (List.range 50).map (fun i =>
    (centerLat + (rand (3 * i) - 1 / 2) * (1 / 5),
     centerLon + (rand (3 * i + 1) - 1 / 2) * (1 / 5),
     match mode with
     | OverlayMode.temperature => rand (3 * i + 2) * 15 + 15
     | OverlayMode.wind => rand (3 * i + 2) * 10
     | OverlayMode.precipitation => rand (3 * i + 2) * 5))

/-- The session state the script keeps in globals and in the DOM:
`currentLat`/`currentLon` (script lines 7–8), the two DOM regions, the map
view center (`map.setView`), and the current overlay sample set
(`heatLayer`). -/
structure Session where
  currentLat : ℚ
  currentLon : ℚ
  dom : DomState
  mapCenter : ℚ × ℚ
  overlay : List (ℚ × ℚ × ℚ)

/-- Embedding of `updateMapLayers` (script lines 220–283): removes the old
layer and installs a freshly generated 50-point sample set centred on the
session's current coordinate. -/
def updateMapLayers (rand : ℕ → ℚ) (mode : OverlayMode) (s : Session) : Session :=
  { s with overlay := overlayPoints rand mode s.currentLat s.currentLon }

/-- The environment of one lookup: the outcomes the network and RNG would
produce, plus the active overlay mode. -/
structure Env where
  geo : FetchOutcome GeoData
  reverseGeo : FetchOutcome GeoData
  weather : FetchOutcome WeatherData
  rand : ℕ → ℚ
  mode : OverlayMode

/-- The generic fetch-failure message (script lines 63 and 122). -/
def fetchErrorMsg : String := "Error fetching weather data. Please try again."

/-- Embedding of `getWeatherData` (script lines 104–124) as its effect on
the DOM: the whole body is wrapped in `try/catch`, so a transport failure or
a missing `current` block shows the generic error in the summary region and
the function returns normally; on success both regions are rendered. -/
def getWeatherData (outcome : FetchOutcome WeatherData) (cityName country : String)
    (dom : DomState) : DomState :=
  match outcome with
  | FetchOutcome.fail => showError dom fetchErrorMsg
  | FetchOutcome.ok data =>
    match data.current with
    | none => showError dom fetchErrorMsg
    | some c =>
      { currentWeather := displayCurrentWeather c cityName country,
        forecast := Pane.cards (displayForecast data.daily) }

/-- Embedding of `searchWeather` (script lines 31–65) as a state transition
returning the new session and the list of network requests issued, in order.
The empty-input check precedes `showLoading` and any fetch; on a successful
geocode the globals `currentLat`/`currentLon` are overwritten (lines 51–52)
before `getWeatherData`, and `map.setView` + `updateMapLayers` run
afterwards regardless of the fetch's internally caught outcome. -/
def searchWeather (cityInputValue : String) (env : Env) (s : Session) :
    Session × List Request :=
  let cityInput := jsTrim cityInputValue
  if cityInput = "" then
    ({ s with dom := showError s.dom "Please enter a city name" }, [])
  else
    let s1 : Session := { s with dom := showLoading s.dom }
    match env.geo with
    | FetchOutcome.fail =>
      ({ s1 with dom := showError s1.dom fetchErrorMsg }, [Request.geocode cityInput])
    | FetchOutcome.ok none =>
      ({ s1 with dom := showError s1.dom "City not found. Please try another city." },
       [Request.geocode cityInput])
    | FetchOutcome.ok (some []) =>
      ({ s1 with dom := showError s1.dom "City not found. Please try another city." },
       [Request.geocode cityInput])
    | FetchOutcome.ok (some (r :: _)) =>
      let s2 : Session := { s1 with currentLat := r.latitude, currentLon := r.longitude }
      let s3 : Session := { s2 with dom := getWeatherData env.weather r.name r.country s2.dom }
      let s4 : Session := { s3 with mapCenter := (r.latitude, r.longitude) }
      (updateMapLayers env.rand env.mode s4,
       [Request.geocode cityInput, Request.weather r.latitude r.longitude])

/-- The `data.results?.[0]?.name || 'Your Location'` fallback of
`getCurrentLocation` (script line 82): a missing `results` field, an empty
array, or a falsy (empty) name all yield the sentinel. -/
def jsOrName (geo : GeoData) : String :=
  match geo with
  | none => "Your Location"
  | some [] => "Your Location"
  | some (r :: _) => if r.name = "" then "Your Location" else r.name

/-- The `data.results?.[0]?.country || ''` fallback of `getCurrentLocation`
(script line 83); on a present result the `|| ''` maps an empty country to
itself, so only the missing cases matter. -/
def jsOrCountry (geo : GeoData) : String :=
  match geo with
  | none => ""
  | some [] => ""
  | some (r :: _) => r.country

/-- Embedding of the success callback of `getCurrentLocation` (script lines
68–97), given the device position: `showLoading` ran before the callback,
the globals are set to the device coordinates, then the reverse geocode; on
its failure the `catch` (lines 89–92) still calls `getWeatherData` with the
sentinel label but skips `map.setView`/`updateMapLayers`. -/
def getCurrentLocationSuccess (pos : ℚ × ℚ) (env : Env) (s : Session) :
    Session × List Request :=
  let s0 : Session := { s with dom := showLoading s.dom, currentLat := pos.1, currentLon := pos.2 }
  match env.reverseGeo with
  | FetchOutcome.fail =>
    ({ s0 with dom := getWeatherData env.weather "Your Location" "" s0.dom },
     [Request.reverseGeocode pos.1 pos.2, Request.weather pos.1 pos.2])
  | FetchOutcome.ok geo =>
    let s1 : Session :=
      { s0 with dom := getWeatherData env.weather (jsOrName geo) (jsOrCountry geo) s0.dom }
    let s2 : Session := { s1 with mapCenter := (pos.1, pos.2) }
    (updateMapLayers env.rand env.mode s2,
     [Request.reverseGeocode pos.1 pos.2, Request.weather pos.1 pos.2])

/-- The session at startup (script lines 6–10): the default London
coordinate, nothing rendered yet, no overlay samples. -/
def startupSession : Session :=
  { currentLat := 51.5074, currentLon := -0.1278,
    dom := ⟨Pane.blank, Pane.blank⟩,
    mapCenter := (51.5074, -0.1278), overlay := [] }

/-- Embedding of `initMap` (script lines 19–28): sets the map view to the
current (default) coordinate and then calls `showTemperatureMap()`, whose
`updateMapLayers()` generates the initial 50-sample temperature overlay
around that center before the automatic search runs. -/
def initMap (rand : ℕ → ℚ) (s : Session) : Session :=
  updateMapLayers rand OverlayMode.temperature
    { s with mapCenter := (s.currentLat, s.currentLon) }

/-- Embedding of `initApp` (script lines 13–16): awaits `initMap()` and then
calls `searchWeather()`, which reads the `#cityInput` field; the page markup
gives that field no initial value, so the startup call runs on the given
(empty by default) input value against the startup session after the map
initialisation. -/
def initApp (cityInputValue : String) (env : Env) : Session × List Request :=
  searchWeather cityInputValue env (initMap env.rand startupSession)

/-! Concrete example inputs used to instantiate the theorems below. -/

/-- A concrete 6-entry daily block (today + 5 forecast days). -/
def sampleDaily : DailyBlock :=
  { time := ["2025-01-01", "2025-01-02", "2025-01-03", "2025-01-04", "2025-01-05", "2025-01-06"],
    weather_code := [0, 1, 2, 3, 45, 48],
    temperature_2m_max := [10, 11, 12, 13, 14, 15],
    temperature_2m_min := [1, 2, 3, 4, 5, 6],
    precipitation_sum := [0, 0, 0, 0, 0, 0],
    wind_speed_10m_max := [5, 5, 5, 5, 5, 5] }

/-- A forecast card as it might remain rendered from an earlier lookup. -/
def prevCard : ForecastCard :=
  { time := some "2025-01-02", maxTemp := some 11, minTemp := some 2,
    info := ⟨"Mainly clear", "ğŸŒ¤ï¸"⟩, windSpeed := some 5, precipitation := some 0 }

/-- A session in which a previous lookup has left forecast cards rendered. -/
def sessionWithCards : Session :=
  { currentLat := 1, currentLon := 2,
    dom := ⟨Pane.blank, Pane.cards [prevCard]⟩,
    mapCenter := (1, 2), overlay := [] }

/-- A geocoding match used as the concrete resolved location. -/
def parisResult : GeoResult :=
  { latitude := 10, longitude := 20, name := "Paris", country := "France" }

/-- Environment: geocoding succeeds with zero results (`NotFound`). -/
def envNotFound : Env :=
  { geo := FetchOutcome.ok (some []), reverseGeo := FetchOutcome.fail,
    weather := FetchOutcome.fail, rand := fun _ => 0, mode := OverlayMode.temperature }

/-- Environment: geocoding resolves but the weather fetch fails. -/
def envWeatherFail : Env :=
  { geo := FetchOutcome.ok (some [parisResult]), reverseGeo := FetchOutcome.fail,
    weather := FetchOutcome.fail, rand := fun _ => 0, mode := OverlayMode.temperature }

/-- Environment: reverse geocoding succeeds with a nameless (absent
`results`) response; the weather fetch succeeds. -/
def envNoName : Env :=
  { geo := FetchOutcome.fail, reverseGeo := FetchOutcome.ok none,
    weather := FetchOutcome.ok ⟨some ⟨20, 50, 19, 0, 7, 90⟩, sampleDaily⟩,
    rand := fun _ => 0, mode := OverlayMode.temperature }

/-- An arbitrary concrete environment for claims whose outcome cannot
depend on it. -/
def anyEnv : Env :=
  { geo := FetchOutcome.fail, reverseGeo := FetchOutcome.fail,
    weather := FetchOutcome.fail, rand := fun _ => 0, mode := OverlayMode.temperature }

/-- The constant-zero `Math.random()` stream, a valid draw sequence. -/
def zeroRand : ℕ → ℚ := fun _ => 0

/-- A submitted lookup fails: the geocode fetch throws, or it returns no
match, or the subsequent weather fetch throws or lacks a `current` block. -/
def lookupFailed (env : Env) : Prop :=
  env.geo = FetchOutcome.fail ∨ env.geo = FetchOutcome.ok none ∨
  env.geo = FetchOutcome.ok (some []) ∨
  (∃ r rest, env.geo = FetchOutcome.ok (some (r :: rest)) ∧
    (env.weather = FetchOutcome.fail ∨
      ∃ w, env.weather = FetchOutcome.ok w ∧ w.current = none))

/-- A reverse-geocoding response that contains no named result: the
`results` field is absent or the array is empty. -/
def noNamedResult (geo : GeoData) : Prop := geo = none ∨ geo = some []

/-! Theorems. -/

/-- Evaluation helper: the wind index at `-12` degrees is `-1`
(so the JS array read is out of bounds). -/
theorem windIndex_neg_twelve : windIndex (-12) = -1 := by
  have e : (-12 : ℚ) / (45 / 2) + 1 / 2 = -1 / 30 := by norm_num
  have f : jsRound ((-12 : ℚ) / (45 / 2)) = -1 := by
    rw [jsRound, e]; norm_num
  rw [windIndex, f]; decide

/-- Evaluation helper: the wind index at `348` degrees is `15`. -/
theorem windIndex_348 : windIndex 348 = 15 := by
  have e : (348 : ℚ) / (45 / 2) + 1 / 2 = 479 / 30 := by norm_num
  have f : jsRound ((348 : ℚ) / (45 / 2)) = 15 := by
    rw [jsRound, e]; norm_num
  rw [windIndex, f]; decide

/-- Evaluation helper: `getWindDirection(-12)` is JS `undefined`. -/
theorem getWindDirection_neg_twelve : getWindDirection (-12) = none := by
  rw [getWindDirection, windIndex_neg_twelve]
  rfl

/-- Evaluation helper: `getWindDirection(348) = 'NNW'`. -/
theorem getWindDirection_348 : getWindDirection 348 = some "NNW" := by
  rw [getWindDirection, windIndex_348]
  rfl

/-- C4, counterexample: the wind-direction labeling function is not
periodic over all degrees and not total over negative inputs.  At
`d = -12`, `Math.round(-12 / 22.5) % 16 = -1` with JS truncated `%`, so
`directions[-1]` is `undefined` (`none`), while `d + 360 * 1 = 348` yields
`'NNW'`. -/
theorem wind_periodicity_cex :
    getWindDirection (-12) = none ∧
    getWindDirection ((-12 : ℚ) + 360 * ((1 : ℤ) : ℚ)) = some "NNW" ∧
    ¬ (∀ (d : ℚ) (k : ℤ), getWindDirection d = getWindDirection (d + 360 * (k : ℚ))) := by
  have h348 : ((-12 : ℚ) + 360 * ((1 : ℤ) : ℚ)) = 348 := by norm_num
  refine ⟨getWindDirection_neg_twelve, ?_, ?_⟩
  · rw [h348, getWindDirection_348]
  · intro hall
    have hx := hall (-12) 1
    rw [h348, getWindDirection_348, getWindDirection_neg_twelve] at hx
    exact Option.noConfusion hx

/-- C4, amended: for every nonnegative degree value `d` and every natural
`k`, the labeling function satisfies `label(d + 360 * k) = label(d)` and
returns an actual label (it is only total, and only periodic, on
nonnegative inputs; negative inputs can index the array out of bounds). -/
theorem wind_periodicity_amended (d : ℚ) (k : ℕ) (hd : 0 ≤ d) :
    getWindDirection (d + 360 * (k : ℚ)) = getWindDirection d ∧
    (getWindDirection d).isSome := by
  have hKcast : (d + 360 * (k : ℚ)) / (45 / 2) = d / (45 / 2) + ((16 * (k : ℤ) : ℤ) : ℚ) := by
    push_cast
    ring
  have hround : jsRound ((d + 360 * (k : ℚ)) / (45 / 2)) =
      jsRound (d / (45 / 2)) + 16 * (k : ℤ) := by
    rw [jsRound, hKcast, add_right_comm, Int.floor_add_int, jsRound]
  have ha0 : 0 ≤ jsRound (d / (45 / 2)) := by
    rw [jsRound]
    refine Int.floor_nonneg.mpr ?_
    have h1 : 0 ≤ d / (45 / 2) := div_nonneg hd (by norm_num)
    linarith
  have hwi : windIndex (d + 360 * (k : ℚ)) = windIndex d := by
    rw [windIndex, windIndex, hround, jsMod, jsMod,
      Int.tmod_eq_emod (by omega) (by norm_num),
      Int.tmod_eq_emod ha0 (by norm_num),
      Int.add_mul_emod_self_left]
  have hb0 : 0 ≤ windIndex d := by
    rw [windIndex, jsMod, Int.tmod_eq_emod ha0 (by norm_num)]
    exact Int.emod_nonneg _ (by norm_num)
  have hb16 : windIndex d < 16 := by
    rw [windIndex, jsMod, Int.tmod_eq_emod ha0 (by norm_num)]
    exact Int.emod_lt_of_pos _ (by norm_num)
  refine ⟨by rw [getWindDirection, getWindDirection, hwi], ?_⟩
  rw [getWindDirection, if_neg (not_lt.mpr hb0)]
  have hlen : directions.length = 16 := rfl
  have hlt : (windIndex d).toNat < directions.length := by omega
  rw [List.get?_eq_get hlt]
  rfl

/-- C4, witness: the amended periodicity theorem applied at `d = 0`,
`k = 1`. -/
theorem wind_periodicity_witness :
    (0 : ℚ) ≤ 0 ∧
    (getWindDirection ((0 : ℚ) + 360 * ((1 : ℕ) : ℚ)) = getWindDirection 0 ∧
      (getWindDirection (0 : ℚ)).isSome) :=
  ⟨le_rfl, wind_periodicity_amended 0 1 le_rfl⟩

/-- C9: the weather-code catalog lookup is total and deterministic: every
code outside the enumerated table yields the Unknown sentinel, and each
enumerated code yields exactly the documented description and icon. -/
theorem weather_catalog_total :
    (∀ code : ℤ, code ∉ knownCodes → getWeatherInfo code = unknownInfo) ∧
    getWeatherInfo 0 = ⟨"Clear sky", "â˜€ï¸"⟩ ∧
    getWeatherInfo 1 = ⟨"Mainly clear", "ğŸŒ¤ï¸"⟩ ∧
    getWeatherInfo 2 = ⟨"Partly cloudy", "â›…"⟩ ∧
    getWeatherInfo 3 = ⟨"Overcast", "â˜ï¸"⟩ ∧
    getWeatherInfo 45 = ⟨"Fog", "ğŸŒ«ï¸"⟩ ∧
    getWeatherInfo 48 = ⟨"Depositing rime fog", "ğŸŒ«ï¸"⟩ ∧
    getWeatherInfo 51 = ⟨"Light drizzle", "ğŸŒ¦ï¸"⟩ ∧
    getWeatherInfo 53 = ⟨"Moderate drizzle", "ğŸŒ¦ï¸"⟩ ∧
    getWeatherInfo 55 = ⟨"Dense drizzle", "ğŸŒ¦ï¸"⟩ ∧
    getWeatherInfo 61 = ⟨"Slight rain", "ğŸŒ§ï¸"⟩ ∧
    getWeatherInfo 63 = ⟨"Moderate rain", "ğŸŒ§ï¸"⟩ ∧
    getWeatherInfo 65 = ⟨"Heavy rain", "â›ˆï¸"⟩ ∧
    getWeatherInfo 80 = ⟨"Slight rain showers", "ğŸŒ¦ï¸"⟩ ∧
    getWeatherInfo 81 = ⟨"Moderate rain showers", "ğŸŒ§ï¸"⟩ ∧
    getWeatherInfo 82 = ⟨"Violent rain showers", "â›ˆï¸"⟩ ∧
    getWeatherInfo 95 = ⟨"Thunderstorm", "â›ˆï¸"⟩ ∧
    getWeatherInfo 96 = ⟨"Thunderstorm with hail", "â›ˆï¸"⟩ := by
  refine ⟨?_, by decide⟩
  intro code hc
  simp only [knownCodes, List.mem_cons, List.mem_singleton, not_or] at hc
  obtain ⟨h0, h1, h2, h3, h45, h48, h51, h53, h55, h61, h63, h65, h80, h81, h82, h95, h96, -⟩ := hc
  rw [getWeatherInfo, if_neg h0, if_neg h1, if_neg h2, if_neg h3, if_neg h45, if_neg h48,
    if_neg h51, if_neg h53, if_neg h55, if_neg h61, if_neg h63, if_neg h65, if_neg h80,
    if_neg h81, if_neg h82, if_neg h95, if_neg h96]

/-- C9, witness: code `7` is not in the table and yields the sentinel. -/
theorem weather_catalog_total_witness : getWeatherInfo 7 = unknownInfo :=
  weather_catalog_total.1 7 (by decide)

/-- Helper: a `get?` at an in-bounds index is `some`. -/
theorem get?_isSome_of_lt {α : Type} (l : List α) (n : ℕ) (h : n < l.length) :
    (l.get? n).isSome := by
  rw [List.get?_eq_get h]
  rfl

/-- Helper: a mapped `get?` at an in-bounds index is `some`. -/
theorem get?_map_isSome_of_lt {α β : Type} (f : α → β) (l : List α) (n : ℕ)
    (h : n < l.length) : ((l.get? n).map f).isSome := by
  rw [List.get?_eq_get h]
  rfl

/-- C1: whenever every daily array has at least 6 entries, the forecast
renderer produces exactly 5 cards, the `j`-th rendered card being built from
daily index `j + 1` (indices 1 through 5 in order, skipping index 0), with
every field present. -/
theorem forecast_five_cards (daily : DailyBlock)
    (ht : 6 ≤ daily.time.length)
    (hcode : 6 ≤ daily.weather_code.length)
    (hmax : 6 ≤ daily.temperature_2m_max.length)
    (hmin : 6 ≤ daily.temperature_2m_min.length)
    (hprec : 6 ≤ daily.precipitation_sum.length)
    (hwind : 6 ≤ daily.wind_speed_10m_max.length) :
    (displayForecast daily).length = 5 ∧
    ∀ j : ℕ, j < 5 →
      (displayForecast daily).get? j = some (mkForecastCard daily (j + 1)) ∧
      (mkForecastCard daily (j + 1)).time = daily.time.get? (j + 1) ∧
      ((mkForecastCard daily (j + 1)).time).isSome ∧
      (mkForecastCard daily (j + 1)).maxTemp =
        (daily.temperature_2m_max.get? (j + 1)).map jsRound ∧
      ((mkForecastCard daily (j + 1)).maxTemp).isSome ∧
      (mkForecastCard daily (j + 1)).minTemp =
        (daily.temperature_2m_min.get? (j + 1)).map jsRound ∧
      ((mkForecastCard daily (j + 1)).minTemp).isSome ∧
      (mkForecastCard daily (j + 1)).info =
        ((daily.weather_code.get? (j + 1)).map getWeatherInfo).getD unknownInfo ∧
      (daily.weather_code.get? (j + 1)).isSome ∧
      (mkForecastCard daily (j + 1)).windSpeed = daily.wind_speed_10m_max.get? (j + 1) ∧
      ((mkForecastCard daily (j + 1)).windSpeed).isSome ∧
      (mkForecastCard daily (j + 1)).precipitation = daily.precipitation_sum.get? (j + 1) ∧
      ((mkForecastCard daily (j + 1)).precipitation).isSome := by
  refine ⟨by simp [displayForecast], fun j hj => ?_⟩
  have hget : (displayForecast daily).get? j = some (mkForecastCard daily (j + 1)) := by
    rw [displayForecast, List.get?_map, List.get?_range hj]
    rfl
  exact ⟨hget, rfl, get?_isSome_of_lt _ _ (by omega), rfl,
    get?_map_isSome_of_lt _ _ _ (by omega), rfl, get?_map_isSome_of_lt _ _ _ (by omega),
    rfl, get?_isSome_of_lt _ _ (by omega), rfl, get?_isSome_of_lt _ _ (by omega),
    rfl, get?_isSome_of_lt _ _ (by omega)⟩

/-- C1, witness: the theorem applied to a concrete 6-entry daily block. -/
theorem forecast_five_cards_witness :
    (displayForecast sampleDaily).length = 5 ∧
    (displayForecast sampleDaily).get? 0 = some (mkForecastCard sampleDaily 1) :=
  ⟨(forecast_five_cards sampleDaily (by decide) (by decide) (by decide) (by decide)
      (by decide) (by decide)).1,
   ((forecast_five_cards sampleDaily (by decide) (by decide) (by decide) (by decide)
      (by decide) (by decide)).2 0 (by decide)).1⟩

/-- C2, counterexample: a submitted lookup whose geocoding returns no match
does not leave the previously displayed forecast cards in the forecast
region — `showLoading` (called before the geocode) already replaced them
with the loading placeholder, and only the summary region receives the
error. -/
theorem failed_lookup_forecast_cex :
    sessionWithCards.dom.forecast = Pane.cards [prevCard] ∧
    (searchWeather "Nowhere" envNotFound sessionWithCards).1.dom.forecast =
      Pane.loadingForecast ∧
    Pane.loadingForecast ≠ Pane.cards [prevCard] ∧
    (searchWeather "Nowhere" envNotFound sessionWithCards).1.dom.currentWeather =
      Pane.errorMsg "City not found. Please try another city." := by
  refine ⟨rfl, by decide, by decide, by decide⟩

/-- C2, amended: on every failure of a submitted lookup, the error message
replaces only the summary region (the error write never touches the forecast
region), and the forecast region holds the loading placeholder that
`showLoading` installed when the lookup began — not the cards displayed
before the lookup. -/
theorem failed_lookup_amended (input : String) (env : Env) (s : Session)
    (hne : jsTrim input ≠ "") (hf : lookupFailed env) :
    (∃ msg, (searchWeather input env s).1.dom.currentWeather = Pane.errorMsg msg) ∧
    (searchWeather input env s).1.dom.forecast = Pane.loadingForecast ∧
    (∀ dom msg, (showError dom msg).forecast = dom.forecast) := by
  rcases hf with hg | hg | hg | ⟨r, rest, hg, hw⟩
  · exact ⟨⟨fetchErrorMsg, by simp [searchWeather, hne, hg, showError, showLoading]⟩,
      by simp [searchWeather, hne, hg, showError, showLoading], fun dom msg => rfl⟩
  · exact ⟨⟨"City not found. Please try another city.",
      by simp [searchWeather, hne, hg, showError, showLoading]⟩,
      by simp [searchWeather, hne, hg, showError, showLoading], fun dom msg => rfl⟩
  · exact ⟨⟨"City not found. Please try another city.",
      by simp [searchWeather, hne, hg, showError, showLoading]⟩,
      by simp [searchWeather, hne, hg, showError, showLoading], fun dom msg => rfl⟩
  · rcases hw with hw | ⟨w, hw, hcur⟩
    · exact ⟨⟨fetchErrorMsg, by simp [searchWeather, hne, hg, hw, getWeatherData,
        updateMapLayers, showError, showLoading]⟩,
        by simp [searchWeather, hne, hg, hw, getWeatherData, updateMapLayers,
          showError, showLoading], fun dom msg => rfl⟩
    · exact ⟨⟨fetchErrorMsg, by simp [searchWeather, hne, hg, hw, hcur, getWeatherData,
        updateMapLayers, showError, showLoading]⟩,
        by simp [searchWeather, hne, hg, hw, hcur, getWeatherData, updateMapLayers,
          showError, showLoading], fun dom msg => rfl⟩

/-- C2, witness: the amended theorem applied to the concrete no-match
lookup over a session with previously rendered cards. -/
theorem failed_lookup_amended_witness :
    (searchWeather "Nowhere" envNotFound sessionWithCards).1.dom.forecast =
      Pane.loadingForecast :=
  (failed_lookup_amended "Nowhere" envNotFound sessionWithCards (by decide)
    (Or.inr (Or.inr (Or.inl rfl)))).2.1

/-- C3, counterexample: when the location resolves but the weather fetch
fails, the session's center coordinate does NOT remain what it was before
the lookup: the globals are overwritten with the resolved coordinate
(script lines 51–52) before the fetch. -/
theorem partial_failure_center_cex :
    sessionWithCards.currentLat = 1 ∧
    envWeatherFail.weather = FetchOutcome.fail ∧
    (searchWeather "Paris" envWeatherFail sessionWithCards).1.currentLat = 10 ∧
    (10 : ℚ) ≠ 1 ∧
    (searchWeather "Paris" envWeatherFail sessionWithCards).1.dom.currentWeather =
      Pane.errorMsg fetchErrorMsg := by
  refine ⟨rfl, rfl, rfl, by norm_num, by decide⟩

/-- C3, amended: when the location resolves but the weather fetch fails,
the generic fetch error is reported in the summary region, the resolved
name/country are discarded (nothing is rendered from them), and exactly one
weather request is issued (no retry); however the session center IS updated
to the resolved coordinate and the map recentred there, rather than staying
at its pre-lookup value. -/
theorem partial_failure_amended (input : String) (env : Env) (s : Session)
    (r : GeoResult) (rest : List GeoResult)
    (hne : jsTrim input ≠ "") (hgeo : env.geo = FetchOutcome.ok (some (r :: rest)))
    (hw : env.weather = FetchOutcome.fail) :
    (searchWeather input env s).1.dom.currentWeather = Pane.errorMsg fetchErrorMsg ∧
    (searchWeather input env s).1.dom.forecast = Pane.loadingForecast ∧
    (searchWeather input env s).2 =
      [Request.geocode (jsTrim input), Request.weather r.latitude r.longitude] ∧
    (searchWeather input env s).1.currentLat = r.latitude ∧
    (searchWeather input env s).1.currentLon = r.longitude ∧
    (searchWeather input env s).1.mapCenter = (r.latitude, r.longitude) := by
  simp [searchWeather, hne, hgeo, hw, getWeatherData, showError, showLoading, updateMapLayers]

/-- C3, witness: the amended theorem applied to the concrete
resolved-then-failed lookup. -/
theorem partial_failure_amended_witness :
    (searchWeather "Paris" envWeatherFail sessionWithCards).1.mapCenter =
      (parisResult.latitude, parisResult.longitude) :=
  (partial_failure_amended "Paris" envWeatherFail sessionWithCards parisResult []
    (by decide) rfl rfl).2.2.2.2.2

/-- C5: at startup the session center does default to `(51.5074, -0.1278)`
and `initMap` draws the cosmetic temperature overlay there, but the
automatic `searchWeather()` call reads the empty `#cityInput` field, shows
the empty-query error instead, issues no network request, and never uses the
default coordinate for a lookup — the weather summary and forecast regions
are NOT populated from the default location, contradicting the script's own
comment `// Load default weather for London`. -/
theorem startup_empty_input_error (env : Env) :
    startupSession.currentLat = 51.5074 ∧
    startupSession.currentLon = -0.1278 ∧
    (initApp "" env).1.dom.currentWeather = Pane.errorMsg "Please enter a city name" ∧
    (initApp "" env).2 = [] ∧
    (initApp "" env).1.dom.forecast = Pane.blank ∧
    (initApp "" env).1.currentLat = 51.5074 ∧
    (initApp "" env).1.currentLon = -0.1278 ∧
    (initApp "" env).1.mapCenter = (51.5074, -0.1278) ∧
    (initApp "" env).1.overlay =
      overlayPoints env.rand OverlayMode.temperature 51.5074 (-0.1278) := by
  have h : jsTrim "" = "" := rfl
  refine ⟨rfl, rfl, ?_, ?_, ?_, ?_, ?_, ?_, ?_⟩ <;>
    simp [initApp, initMap, searchWeather, h, showError, updateMapLayers, startupSession]

/-- C6: every overlay regeneration yields exactly 50 samples; each sample's
latitude and longitude lie within jitter `[-0.1, +0.1)` of the given center
independently per axis, and its intensity lies within the active mode's
range (`[15,30)` for Temperature, `[0,10)` for Wind, `[0,5)` for
Precipitation), for every mode; and the session's sample set is fully
replaced by the freshly generated set. -/
theorem overlay_sampler_bounds (rand : ℕ → ℚ) (mode : OverlayMode) (clat clon : ℚ)
    (s : Session) (hrand : ∀ n, 0 ≤ rand n ∧ rand n < 1) :
    (overlayPoints rand mode clat clon).length = 50 ∧
    (∀ p ∈ overlayPoints rand mode clat clon,
      -(1 / 10) ≤ p.1 - clat ∧ p.1 - clat < 1 / 10 ∧
      -(1 / 10) ≤ p.2.1 - clon ∧ p.2.1 - clon < 1 / 10 ∧
      (mode = OverlayMode.temperature → 15 ≤ p.2.2 ∧ p.2.2 < 30) ∧
      (mode = OverlayMode.wind → 0 ≤ p.2.2 ∧ p.2.2 < 10) ∧
      (mode = OverlayMode.precipitation → 0 ≤ p.2.2 ∧ p.2.2 < 5)) ∧
    (updateMapLayers rand mode s).overlay =
      overlayPoints rand mode s.currentLat s.currentLon := by
  refine ⟨by simp [overlayPoints], ?_, rfl⟩
  intro p hp
  simp only [overlayPoints, List.mem_map, List.mem_range] at hp
  obtain ⟨i, hi, rfl⟩ := hp
  obtain ⟨h1a, h1b⟩ := hrand (3 * i)
  obtain ⟨h2a, h2b⟩ := hrand (3 * i + 1)
  obtain ⟨h3a, h3b⟩ := hrand (3 * i + 2)
  refine ⟨?_, ?_, ?_, ?_, ?_, ?_, ?_⟩
  · show -(1 / 10) ≤ clat + (rand (3 * i) - 1 / 2) * (1 / 5) - clat
    linarith
  · show clat + (rand (3 * i) - 1 / 2) * (1 / 5) - clat < 1 / 10
    linarith
  · show -(1 / 10) ≤ clon + (rand (3 * i + 1) - 1 / 2) * (1 / 5) - clon
    linarith
  · show clon + (rand (3 * i + 1) - 1 / 2) * (1 / 5) - clon < 1 / 10
    linarith
  · rintro rfl
    constructor
    · show (15 : ℚ) ≤ rand (3 * i + 2) * 15 + 15
      linarith
    · show rand (3 * i + 2) * 15 + 15 < 30
      linarith
  · rintro rfl
    constructor
    · show (0 : ℚ) ≤ rand (3 * i + 2) * 10
      linarith
    · show rand (3 * i + 2) * 10 < 10
      linarith
  · rintro rfl
    constructor
    · show (0 : ℚ) ≤ rand (3 * i + 2) * 5
      linarith
    · show rand (3 * i + 2) * 5 < 5
      linarith

/-- C6, witness: the sampler theorem applied to the constant-zero random
stream in Temperature mode. -/
theorem overlay_sampler_bounds_witness :
    (overlayPoints zeroRand OverlayMode.temperature 0 0).length = 50 ∧
    (updateMapLayers zeroRand OverlayMode.temperature startupSession).overlay =
      overlayPoints zeroRand OverlayMode.temperature
        startupSession.currentLat startupSession.currentLon :=
  ⟨(overlay_sampler_bounds zeroRand OverlayMode.temperature 0 0 startupSession
      (fun _ => ⟨le_rfl, zero_lt_one⟩)).1,
   (overlay_sampler_bounds zeroRand OverlayMode.temperature 0 0 startupSession
      (fun _ => ⟨le_rfl, zero_lt_one⟩)).2.2⟩

/-- C7: a query that is empty after trimming fails before any network call:
the empty-query error replaces the summary region, no request is issued, and
the session's coordinates, map center, overlay samples and forecast region
are all unchanged. -/
theorem empty_query_no_request (input : String) (env : Env) (s : Session)
    (h : jsTrim input = "") :
    searchWeather input env s =
      ({ s with dom := showError s.dom "Please enter a city name" }, []) ∧
    (searchWeather input env s).2 = [] ∧
    (searchWeather input env s).1.currentLat = s.currentLat ∧
    (searchWeather input env s).1.currentLon = s.currentLon ∧
    (searchWeather input env s).1.mapCenter = s.mapCenter ∧
    (searchWeather input env s).1.overlay = s.overlay ∧
    (searchWeather input env s).1.dom.forecast = s.dom.forecast := by
  have he : searchWeather input env s =
      ({ s with dom := showError s.dom "Please enter a city name" }, []) := by
    simp [searchWeather, h]
  rw [he]
  exact ⟨rfl, rfl, rfl, rfl, rfl, rfl, rfl⟩

/-- C7, witness: the theorem applied to a whitespace-only input. -/
theorem empty_query_no_request_witness :
    searchWeather "   " anyEnv startupSession =
      ({ startupSession with dom := showError startupSession.dom "Please enter a city name" },
       []) :=
  (empty_query_no_request "   " anyEnv startupSession (by decide)).1

/-- C8: a reverse lookup whose geocoding response contains no named result
succeeds with the sentinel name `"Your Location"` and empty country, and the
weather fetch still proceeds with the device coordinates. -/
theorem reverse_lookup_sentinel (pos : ℚ × ℚ) (env : Env) (s : Session) (g : GeoData)
    (hg : env.reverseGeo = FetchOutcome.ok g) (hn : noNamedResult g) :
    jsOrName g = "Your Location" ∧ jsOrCountry g = "" ∧
    (getCurrentLocationSuccess pos env s).2 =
      [Request.reverseGeocode pos.1 pos.2, Request.weather pos.1 pos.2] ∧
    (getCurrentLocationSuccess pos env s).1.dom =
      getWeatherData env.weather "Your Location" "" (showLoading s.dom) ∧
    (getCurrentLocationSuccess pos env s).1.currentLat = pos.1 ∧
    (getCurrentLocationSuccess pos env s).1.currentLon = pos.2 := by
  rcases hn with rfl | rfl <;>
    simp [getCurrentLocationSuccess, hg, jsOrName, jsOrCountry, showLoading,
      updateMapLayers]

/-- C8, witness: the theorem applied to a concrete reverse lookup whose
response has no `results` field. -/
theorem reverse_lookup_sentinel_witness :
    jsOrName none = "Your Location" ∧
    (getCurrentLocationSuccess (1, 2) envNoName startupSession).2 =
      [Request.reverseGeocode (1, 2).1 (1, 2).2, Request.weather (1, 2).1 (1, 2).2] :=
  ⟨(reverse_lookup_sentinel (1, 2) envNoName startupSession none rfl (Or.inl rfl)).1,
   (reverse_lookup_sentinel (1, 2) envNoName startupSession none rfl (Or.inl rfl)).2.2.1⟩

/-- C10: `getWeatherData` traps every failure internally, so after any
successful geocode the orchestrator unconditionally overwrites the session
coordinates, recenters the map on the resolved coordinate and regenerates
the overlay sample set there — even when the weather fetch failed, in which
case the summary region shows the fetch error. -/
theorem fetch_failure_still_recenters (input : String) (env : Env) (s : Session)
    (r : GeoResult) (rest : List GeoResult)
    (hne : jsTrim input ≠ "") (hgeo : env.geo = FetchOutcome.ok (some (r :: rest))) :
    (searchWeather input env s).1.mapCenter = (r.latitude, r.longitude) ∧
    (searchWeather input env s).1.currentLat = r.latitude ∧
    (searchWeather input env s).1.currentLon = r.longitude ∧
    (searchWeather input env s).1.overlay =
      overlayPoints env.rand env.mode r.latitude r.longitude ∧
    (env.weather = FetchOutcome.fail →
      (searchWeather input env s).1.dom.currentWeather = Pane.errorMsg fetchErrorMsg) := by
  refine ⟨?_, ?_, ?_, ?_, fun hw => ?_⟩ <;>
    simp [searchWeather, hne, hgeo, updateMapLayers, getWeatherData, showError,
      showLoading, *]

/-- C10, witness: the theorem applied to the concrete resolved-then-failed
lookup. -/
theorem fetch_failure_still_recenters_witness :
    (searchWeather "Paris" envWeatherFail startupSession).1.mapCenter =
      (parisResult.latitude, parisResult.longitude) :=
  (fetch_failure_still_recenters "Paris" envWeatherFail startupSession parisResult []
    (by decide) rfl).1

end Weather
